import Mathlib

/-!
Shallow embedding of the rate-limiting engine of the `prodsafe` repository
(`src/lib/rate-limiter.ts` together with the static configuration module
`rate-limit-config.ts` and the event sink `security.ts`).

Timestamps and all JavaScript numbers are modelled as `Int` (epoch
milliseconds); the two bypass result fields that the source sets to
`Infinity` are modelled by a dedicated `JsNum` type.  Fallible external
calls (Redis, Prisma) are modelled by explicit boolean failure flags on a
`World` record: each flag stands for one `try`/`catch`-wrapped operation of
the source throwing.  The source's `async`/`await` sequencing is sequential
state passing over `World`.
-/

namespace ProdSafe

/-- JavaScript number restricted to the values the engine produces:
an integer, or `Infinity` (used by the bypass results). -/
inductive JsNum where
  | num : Int → JsNum
  | inf : JsNum
deriving DecidableEq, Repr

/-- `UserRole` from the Prisma schema (the three roles the catalog uses). -/
inductive UserRole where
  | USER
  | ADMIN
  | SECURITY_LEAD
deriving DecidableEq, Repr

/-- `RateLimitRule` of `rate-limit-config.ts`. -/
structure RateLimitRule where
  requests : Int
  window : String
  windowMs : Int
deriving DecidableEq, Repr

/-- `RateLimitConfig` of `rate-limit-config.ts`. -/
structure RateLimitConfig where
  identifier : String
  rules : List RateLimitRule
  blockDuration : Option String := none
  blockDurationMs : Option Int := none
deriving DecidableEq, Repr

/-- `RateLimitContext` of `rate-limiter.ts`. -/
structure RateLimitContext where
  userId : Option String := none
  userRole : Option UserRole := none
  ip : String
  userAgent : String
  endpoint : String
  operationType : Option String := none
deriving DecidableEq, Repr

/-- `RateLimitResult` of `rate-limiter.ts`; absent optional fields are `none`. -/
structure RateLimitResult where
  success : Bool
  limit : JsNum
  remaining : JsNum
  reset : Int
  blocked : Option Bool := none
  blockUntil : Option Int := none
  retryAfter : Option Int := none
  error : Option String := none
deriving DecidableEq, Repr

/-- A `rateLimitEntry` row of the Prisma fallback table. -/
structure CounterEntry where
  id : Nat
  userId : Option String
  ip : String
  endpoint : String
  attempts : Int
  windowStart : Int
  expiresAt : Int
deriving DecidableEq, Repr

/-- The fallback table: rows in insertion order plus the next fresh row id
(standing for the generated primary keys; the literal `"new"` of the
source's upsert never collides with a generated id). -/
structure Db where
  rows : List CounterEntry
  nextId : Nat
deriving DecidableEq, Repr

def emptyDb : Db := ⟨[], 0⟩

/-- Details payload of each `logSecurityEvent` call site in
`rate-limiter.ts` (ISO rendering of timestamps is kept as the raw `Int`). -/
inductive EventDetail where
  | violation (endpoint configId violationType severity : String)
      (blockUntil : Option Int)
  | blockSet (endpoint : String) (blockDuration : Option String) (blockUntil : Int)
  | limiterError (endpoint ip : String)
deriving DecidableEq, Repr

/-- A record written to the `securityLog` event sink (`security.ts`). -/
structure SecurityEvent where
  userId : Option String
  action : String
  detail : EventDetail
  ip : String
  userAgent : String
  success : Bool
deriving DecidableEq, Repr

/-- Outcome of `limiter.limit(identifier)` of the Upstash fast path
(external library; treated as an oracle). -/
structure FastOutcome where
  success : Bool
  limit : Int
  remaining : Int
  reset : Int
deriving DecidableEq, Repr

/-- The external state an invocation of the engine interacts with, plus one
failure flag per `try`/`catch`-wrapped external call of the source:
`redisUp` is whether the module-level `redis` client is non-null,
`fastOutcome = none` means `limiter.limit` throws (reaching the outer
catch), `blockLookupFails` means the lookup inside `checkBlockStatus`
throws, `setexFails` means `redis.setex` inside `handleRateLimitBlock`
throws, `dbFails` means the Prisma calls of `checkRateLimitDatabase`
throw, `sinkFails` means `prisma.securityLog.create` inside
`logSecurityEvent` throws (and is swallowed there), `recentViolations` is
the `securityLog.count` result used by the database block path. -/
structure World where
  redisUp : Bool
  blocks : List (String × Int)
  fastOutcome : Option FastOutcome
  blockLookupFails : Bool
  setexFails : Bool
  recentViolations : Int
  db : Db
  dbFails : Bool
  sinkFails : Bool
  events : List SecurityEvent
deriving DecidableEq, Repr

/-- JavaScript `Math.ceil(a / b)` for a positive integer divisor `b`
(Lean's `Int` division is floor division, so the ceiling is `-((-a)/b)`). -/
def ceilDiv (a b : Int) : Int := -((-a) / b)

/-- JavaScript falsiness of an optional numeric field
(`undefined` and `0` are falsy). -/
def isFalsyNum : Option Int → Bool
  | none => true
  | some v => v == 0

/- ### Static configuration (`rate-limit-config.ts`) -/

def authLoginConfig : RateLimitConfig :=
  ⟨"auth:login", [⟨5, "15 m", 900000⟩], some "30 m", some 1800000⟩

def authRegisterConfig : RateLimitConfig :=
  ⟨"auth:register", [⟨3, "1 h", 3600000⟩], some "1 h", some 3600000⟩

def authPasswordResetConfig : RateLimitConfig :=
  ⟨"auth:password_reset", [⟨3, "1 h", 3600000⟩], some "1 h", some 3600000⟩

def apiUserConfig : RateLimitConfig :=
  ⟨"api:user", [⟨100, "1 h", 3600000⟩], some "15 m", some 900000⟩

def apiAdminConfig : RateLimitConfig :=
  ⟨"api:admin", [⟨1000, "1 h", 3600000⟩], some "5 m", some 300000⟩

def apiSecurityLeadConfig : RateLimitConfig :=
  ⟨"api:security_lead", [⟨2000, "1 h", 3600000⟩], some "5 m", some 300000⟩

def securitySensitiveConfig : RateLimitConfig :=
  ⟨"security:sensitive", [⟨10, "1 h", 3600000⟩], some "1 h", some 3600000⟩

def publicConfig : RateLimitConfig :=
  ⟨"public", [⟨20, "1 m", 60000⟩], some "5 m", some 300000⟩

/-- `RATE_LIMIT_CONFIGS` record as an association list. -/
def RATE_LIMIT_CONFIGS : List (String × RateLimitConfig) :=
  [("auth_login", authLoginConfig),
   ("auth_register", authRegisterConfig),
   ("auth_password_reset", authPasswordResetConfig),
   ("api_user", apiUserConfig),
   ("api_admin", apiAdminConfig),
   ("api_security_lead", apiSecurityLeadConfig),
   ("security_sensitive", securitySensitiveConfig),
   ("public", publicConfig)]

def profileUpdateConfig : RateLimitConfig :=
  ⟨"op:profile_update", [⟨5, "1 h", 3600000⟩], some "30 m", some 1800000⟩

def passwordChangeConfig : RateLimitConfig :=
  ⟨"op:password_change", [⟨3, "24 h", 86400000⟩], some "1 h", some 3600000⟩

def emailChangeConfig : RateLimitConfig :=
  ⟨"op:email_change", [⟨2, "24 h", 86400000⟩], some "2 h", some 7200000⟩

def mfaOperationsConfig : RateLimitConfig :=
  ⟨"op:mfa", [⟨5, "1 h", 3600000⟩], some "30 m", some 1800000⟩

/-- `OPERATION_RATE_LIMITS` record as an association list. -/
def OPERATION_RATE_LIMITS : List (String × RateLimitConfig) :=
  [("profile_update", profileUpdateConfig),
   ("password_change", passwordChangeConfig),
   ("email_change", emailChangeConfig),
   ("mfa_operations", mfaOperationsConfig)]

/-- `getRateLimitConfig` of `rate-limit-config.ts`: role-aware tiering for
the `"api_user"` key, plain catalog lookup with `public` fallback otherwise. -/
def getRateLimitConfig (endpointType : String) (userRole : Option UserRole) :
    RateLimitConfig :=
  if endpointType == "api_user" then
    match userRole with
    | some .SECURITY_LEAD => apiSecurityLeadConfig
    | some .ADMIN => apiAdminConfig
    | _ => apiUserConfig
  else
    (RATE_LIMIT_CONFIGS.lookup endpointType).getD publicConfig

/-- `RATE_LIMIT_WHITELIST` — empty in the source. -/
def RATE_LIMIT_WHITELIST : List String := []

/-- `ENDPOINT_SEVERITY` map (string values of `RateLimitSeverity`). -/
def ENDPOINT_SEVERITY : List (String × String) :=
  [("auth_login", "critical"),
   ("auth_register", "high"),
   ("auth_password_reset", "high"),
   ("security_sensitive", "critical"),
   ("api_user", "medium"),
   ("api_admin", "low"),
   ("api_security_lead", "low"),
   ("public", "medium")]

/- ### Engine (`rate-limiter.ts`) -/

/-- `isWhitelisted` — exact membership in `RATE_LIMIT_WHITELIST`. -/
def isWhitelisted (ip : String) : Bool :=
  RATE_LIMIT_WHITELIST.contains ip

/-- The emergency-bypass comparison `headerValue === process.env.EMERGENCY_BYPASS_TOKEN`:
JavaScript strict equality, false when either side is absent
(`null === undefined` is `false`). -/
def bypassMatches (headerValue envToken : Option String) : Bool :=
  match headerValue, envToken with
  | some h, some t => h == t
  | _, _ => false

/-- `createRateLimitIdentifier` of `rate-limiter.ts`. -/
def createRateLimitIdentifier (ctx : RateLimitContext) : String :=
  match ctx.userId with
  | some uid => "user:" ++ uid ++ ":" ++ ctx.ip
  | none => "ip:" ++ ctx.ip

/-- The Redis key of a block entry. -/
def blockKey (ctx : RateLimitContext) : String :=
  "block:" ++ createRateLimitIdentifier ctx

/-- `logSecurityEvent` of `security.ts`: the whole body is wrapped in
`try`/`catch`, so a failing sink write is swallowed and simply records
nothing. -/
def logSecurityEvent (sinkFails : Bool) (events : List SecurityEvent)
    (e : SecurityEvent) : List SecurityEvent :=
  if sinkFails then events else events ++ [e]

/-- The event payload of a `logRateLimitViolation` call (severity looked up
under `config.identifier`, defaulting to `MEDIUM`). -/
def violationEvent (ctx : RateLimitContext) (config : RateLimitConfig)
    (violationType : String) (blockUntil : Option Int) : SecurityEvent :=
  ⟨ctx.userId, "RATE_LIMIT_EXCEEDED",
    .violation ctx.endpoint config.identifier violationType
      ((ENDPOINT_SEVERITY.lookup config.identifier).getD "medium") blockUntil,
    ctx.ip, ctx.userAgent, false⟩

/-- `logRateLimitViolation` of `rate-limiter.ts`. -/
def logRateLimitViolation (w : World) (ctx : RateLimitContext)
    (config : RateLimitConfig) (violationType : String)
    (blockUntil : Option Int) : World :=
  let evs := logSecurityEvent w.sinkFails w.events
    (violationEvent ctx config violationType blockUntil)
  { w with events := evs }

/-- The Prisma `OR: [{userId: context.userId}, {ip: context.ip}]` member for
`userId`: Prisma strips `undefined` filter values, so an anonymous context
makes this branch match every row. -/
def userIdFilter (uid : Option String) (e : CounterEntry) : Bool :=
  match uid with
  | none => true
  | some u => e.userId == some u

/-- The `prisma.rateLimitEntry.findFirst` of `checkRateLimitDatabase`:
first live row for the identifier and endpoint. -/
def dbFind (ctx : RateLimitContext) (now : Int) (db : Db) : Option CounterEntry :=
  db.rows.find? fun e =>
    (userIdFilter ctx.userId e || e.ip == ctx.ip) &&
      e.endpoint == ctx.endpoint && decide (now < e.expiresAt)

/-- The failure result of `checkRateLimitDatabase` built from the live row. -/
def dbFailResult (rule : RateLimitRule) (e : CounterEntry) (now : Int) :
    RateLimitResult :=
  { success := false, limit := .num rule.requests, remaining := .num 0,
    reset := e.expiresAt,
    retryAfter := some (ceilDiv (e.expiresAt - now) 1000) }

/-- The success result of `checkRateLimitDatabase`: `currentAttempts` is
computed from the value read by `dbFind`, not from the updated row. -/
def dbSuccessResult (rule : RateLimitRule) (existing : Option CounterEntry)
    (now : Int) : RateLimitResult :=
  let current := (match existing with | some e => e.attempts | none => 0) + 1
  { success := true, limit := .num rule.requests,
    remaining := .num (max 0 (rule.requests - current)),
    reset := now + rule.windowMs }

/-- The `prisma.rateLimitEntry.upsert` of `checkRateLimitDatabase`: when
`dbFind` saw a row, increment that row's `attempts` (the increment itself is
atomic per row); otherwise the `where id = "new"` misses and a fresh row
with `attempts = 1` is created. -/
def dbUpsert (ctx : RateLimitContext) (rule : RateLimitRule) (now : Int)
    (existing : Option CounterEntry) (db : Db) : Db :=
  match existing with
  | some e =>
    { db with rows := db.rows.map fun r =>
        if r.id == e.id then { r with attempts := r.attempts + 1 } else r }
  | none =>
    { rows := db.rows ++
        [⟨db.nextId, ctx.userId, ctx.ip, ctx.endpoint, 1,
          now - rule.windowMs, now + rule.windowMs⟩],
      nextId := db.nextId + 1 }

/-- `checkRateLimitDatabase` of `rate-limiter.ts`: find the live row, fail
if it is already at the limit, else upsert-increment and succeed; any
Prisma error is caught and fails open with an `error` marker string. -/
def checkRateLimitDatabase (ctx : RateLimitContext) (config : RateLimitConfig)
    (now : Int) (w : World) : RateLimitResult × World :=
  let rule := config.rules.headD ⟨0, "", 0⟩
  if w.dbFails then
    ({ success := true, limit := .num rule.requests,
       remaining := .num (rule.requests - 1), reset := now + rule.windowMs,
       error := some "Database rate limiting error" }, w)
  else
    match dbFind ctx now w.db with
    | some e =>
      if rule.requests ≤ e.attempts then
        (dbFailResult rule e now,
         logRateLimitViolation w ctx config "exceeded_database" none)
      else
        (dbSuccessResult rule (some e) now,
         { w with db := dbUpsert ctx rule now (some e) w.db })
    | none =>
      (dbSuccessResult rule none now,
       { w with db := dbUpsert ctx rule now none w.db })

/-- The outcome record of `checkBlockStatus`. -/
structure BlockStatus where
  blocked : Bool
  blockUntil : Option Int := none
deriving DecidableEq, Repr

/-- `checkBlockStatus` of `rate-limiter.ts`: nothing to do without a
configured (truthy) `blockDurationMs`; a throwing lookup is caught and
treated as not blocked; the Redis path reads the stored `blockUntil`
number; the database path derives a block from at least three recent
violation log rows. -/
def checkBlockStatus (ctx : RateLimitContext) (config : RateLimitConfig)
    (now : Int) (w : World) : BlockStatus :=
  if isFalsyNum config.blockDurationMs then ⟨false, none⟩
  else if w.blockLookupFails then ⟨false, none⟩
  else if w.redisUp then
    match w.blocks.lookup (blockKey ctx) with
    | some v => if v ≠ 0 ∧ now < v then ⟨true, some v⟩ else ⟨false, none⟩
    | none => ⟨false, none⟩
  else
    if 3 ≤ w.recentViolations then
      ⟨true, some (now + config.blockDurationMs.getD 0)⟩
    else ⟨false, none⟩

/-- Overwrite-or-insert on the Redis block ledger (`SETEX` semantics; the
key TTL of the source outlives `blockUntil`, and expiry is re-checked
against `now` on every read, so the TTL itself is not modelled). -/
def setAssoc (l : List (String × Int)) (k : String) (v : Int) :
    List (String × Int) :=
  match l with
  | [] => [(k, v)]
  | (k', v') :: rest =>
    if k' == k then (k, v) :: rest else (k', v') :: setAssoc rest k v

/-- The event payload logged by `handleRateLimitBlock` when a block is set. -/
def blockSetEvent (ctx : RateLimitContext) (config : RateLimitConfig)
    (blockUntil : Int) : SecurityEvent :=
  ⟨ctx.userId, "RATE_LIMIT_EXCEEDED",
    .blockSet ctx.endpoint config.blockDuration blockUntil,
    ctx.ip, ctx.userAgent, false⟩

/-- `handleRateLimitBlock` of `rate-limiter.ts`: no-op without a truthy
`blockDurationMs`; a throwing `redis.setex` is caught, aborting the rest of
the body (so the block event is skipped too); otherwise store
`blockUntil = now + blockDurationMs` when Redis is up and log the block. -/
def handleRateLimitBlock (ctx : RateLimitContext) (config : RateLimitConfig)
    (now : Int) (w : World) : World :=
  if isFalsyNum config.blockDurationMs then w
  else if w.setexFails then w
  else
    let blockUntil := now + config.blockDurationMs.getD 0
    let w1 := if w.redisUp then
        { w with blocks := setAssoc w.blocks (blockKey ctx) blockUntil }
      else w
    let evs := logSecurityEvent w1.sinkFails w1.events
      (blockSetEvent ctx config blockUntil)
    { w1 with events := evs }

/-- The config precedence of `checkRateLimit` lines 131–133:
`customConfig || OPERATION_RATE_LIMITS[configKey] || getRateLimitConfig(...)`
(config objects are always truthy, absent record entries are falsy). -/
def resolveConfig (customConfig : Option RateLimitConfig) (configKey : String)
    (userRole : Option UserRole) : RateLimitConfig :=
  match customConfig with
  | some c => c
  | none =>
    match OPERATION_RATE_LIMITS.lookup configKey with
    | some c => c
    | none => getRateLimitConfig configKey userRole

/-- The bypass result of `checkRateLimit` (both bypass branches). -/
def unlimitedResult (now : Int) : RateLimitResult :=
  { success := true, limit := .inf, remaining := .inf, reset := now + 60000 }

/-- The diagnostic event logged by the outer catch of `checkRateLimit`
(`logSecurityEvent` with the endpoint, error message and ip details). -/
def limiterErrorEvent (ctx : RateLimitContext) : SecurityEvent :=
  ⟨ctx.userId, "RATE_LIMIT_EXCEEDED",
    .limiterError ctx.endpoint ctx.ip, ctx.ip, ctx.userAgent, false⟩

/-- Lines 150–188 of `checkRateLimit` (after the block check): the Upstash
fast path when Redis is up, else the database fallback.  A throwing
`limiter.limit` reaches the outer catch of `checkRateLimit`, which logs a
diagnostic event and fails open with an `error` marker. -/
def counterCheck (ctx : RateLimitContext) (config : RateLimitConfig)
    (now : Int) (w : World) : RateLimitResult × World :=
  if w.redisUp = false then checkRateLimitDatabase ctx config now w
  else
    match w.fastOutcome with
    | none =>
      let evs := logSecurityEvent w.sinkFails w.events (limiterErrorEvent ctx)
      let w1 := { w with events := evs }
      ({ success := true, limit := .num 1000, remaining := .num 999,
         reset := now + 60000,
         error := some "Rate limiting temporarily unavailable" }, w1)
    | some r =>
      if r.success = false then
        let w1 := logRateLimitViolation w ctx config "exceeded" none
        let w2 := handleRateLimitBlock ctx config now w1
        ({ success := false, limit := .num r.limit, remaining := .num r.remaining,
           reset := r.reset,
           retryAfter := some (ceilDiv (r.reset - now) 1000) }, w2)
      else
        ({ success := true, limit := .num r.limit, remaining := .num r.remaining,
           reset := r.reset }, w)

/-- `checkRateLimit` of `rate-limiter.ts`: emergency bypass, whitelist
bypass, config resolution, block check, then the counter check.
`headerValue` is the request's `x-emergency-bypass` header, `envToken` the
`EMERGENCY_BYPASS_TOKEN` environment value. -/
def checkRateLimit (ctx : RateLimitContext) (configKey : String)
    (customConfig : Option RateLimitConfig) (headerValue envToken : Option String)
    (now : Int) (w : World) : RateLimitResult × World :=
  if bypassMatches headerValue envToken then (unlimitedResult now, w)
  else if isWhitelisted ctx.ip then (unlimitedResult now, w)
  else
    let config := resolveConfig customConfig configKey ctx.userRole
    let bs := checkBlockStatus ctx config now w
    if bs.blocked then
      ({ success := false,
         limit := .num (config.rules.headD ⟨0, "", 0⟩).requests,
         remaining := .num 0, reset := bs.blockUntil.getD 0,
         blocked := some true, blockUntil := bs.blockUntil,
         retryAfter := some (ceilDiv (bs.blockUntil.getD 0 - now) 1000) },
       logRateLimitViolation w ctx config "blocked" bs.blockUntil)
    else counterCheck ctx config now w

/-- Iterated sequential invocations of the database fallback path: request
`k` (0-based) runs at time `t k` on the world left by the previous ones. -/
def dbRun (ctx : RateLimitContext) (config : RateLimitConfig) (t : Nat → Int)
    (w : World) : Nat → World
  | 0 => w
  | k + 1 => (checkRateLimitDatabase ctx config (t k) (dbRun ctx config t w k)).2

/-- The result of the `k`-th (0-based) request of the sequential run. -/
def dbRunResult (ctx : RateLimitContext) (config : RateLimitConfig)
    (t : Nat → Int) (w : World) (k : Nat) : RateLimitResult :=
  (checkRateLimitDatabase ctx config (t k) (dbRun ctx config t w k)).1

/- ### Concrete sample data used by witnesses and counterexamples -/

/-- An anonymous request context (the spec's concrete scenario identifier). -/
def sampleCtx : RateLimitContext :=
  { ip := "203.0.113.5", userAgent := "curl/8", endpoint := "/api/auth/login" }

/-- A world with Redis down and an empty, healthy database. -/
def baseWorld : World :=
  { redisUp := false, blocks := [], fastOutcome := none,
    blockLookupFails := false, setexFails := false, recentViolations := 0,
    db := emptyDb, dbFails := false, sinkFails := false, events := [] }

/-- A world where both the fast store and the durable store fail. -/
def outageWorld : World := { baseWorld with dbFails := true }

/-- A world with Redis up and an active block stored for `sampleCtx`. -/
def ledgerWorld : World :=
  { baseWorld with
      redisUp := true
      blocks := [("block:ip:203.0.113.5", 999999)] }

/-- A world whose block-ledger lookup throws. -/
def lookupFailWorld : World := { baseWorld with blockLookupFails := true }

/-- A world whose stored block has already expired and whose fast counter
reports a violation. -/
def expiredWorld : World :=
  { baseWorld with
      redisUp := true
      blocks := [("block:ip:203.0.113.5", 500)]
      fastOutcome := some ⟨false, 5, 0, 10000⟩ }

/-- A config with no block duration configured. -/
def noBlockConfig : RateLimitConfig := ⟨"nb", [⟨5, "1 m", 60000⟩], none, none⟩

/- ### Helper lemmas -/

lemma isWhitelisted_false (ip : String) : isWhitelisted ip = false := rfl

lemma logRateLimitViolation_blocks (w : World) (ctx : RateLimitContext)
    (c : RateLimitConfig) (s : String) (b : Option Int) :
    (logRateLimitViolation w ctx c s b).blocks = w.blocks := rfl

lemma logRateLimitViolation_db (w : World) (ctx : RateLimitContext)
    (c : RateLimitConfig) (s : String) (b : Option Int) :
    (logRateLimitViolation w ctx c s b).db = w.db := rfl

lemma checkRateLimitDatabase_blocks (ctx : RateLimitContext)
    (config : RateLimitConfig) (now : Int) (w : World) :
    (checkRateLimitDatabase ctx config now w).2.blocks = w.blocks := by
  unfold checkRateLimitDatabase
  split
  · rfl
  · split
    · dsimp only
      split <;> rfl
    · rfl

lemma checkRateLimitDatabase_dbFails (ctx : RateLimitContext)
    (config : RateLimitConfig) (now : Int) (w : World) :
    (checkRateLimitDatabase ctx config now w).2.dbFails = w.dbFails := by
  unfold checkRateLimitDatabase
  split
  · rfl
  · split
    · dsimp only
      split <;> rfl
    · rfl

lemma checkBlockStatus_of_bdm_none (ctx : RateLimitContext)
    (config : RateLimitConfig) (now : Int) (w : World)
    (h : config.blockDurationMs = none) :
    checkBlockStatus ctx config now w = ⟨false, none⟩ := by
  unfold checkBlockStatus
  rw [h]
  rfl

lemma checkBlockStatus_of_lookupFails (ctx : RateLimitContext)
    (config : RateLimitConfig) (now : Int) (w : World)
    (h : w.blockLookupFails = true) :
    checkBlockStatus ctx config now w = ⟨false, none⟩ := by
  unfold checkBlockStatus
  rw [h]
  split <;> rfl

lemma ceilDiv_thousand_pos {d : Int} (hd : 0 < d) : 0 < ceilDiv d 1000 := by
  unfold ceilDiv
  omega

lemma checkRateLimitDatabase_result_sink (ctx : RateLimitContext)
    (config : RateLimitConfig) (now : Int) (w : World) (b : Bool) :
    (checkRateLimitDatabase ctx config now { w with sinkFails := b }).1 =
      (checkRateLimitDatabase ctx config now w).1 := by
  unfold checkRateLimitDatabase
  dsimp only
  split
  · rfl
  · cases hdf : dbFind ctx now w.db with
    | none => rfl
    | some e =>
      dsimp only
      split <;> rfl

lemma checkBlockStatus_sink (ctx : RateLimitContext)
    (config : RateLimitConfig) (now : Int) (w : World) (b : Bool) :
    checkBlockStatus ctx config now { w with sinkFails := b } =
      checkBlockStatus ctx config now w := rfl

lemma checkRateLimit_result_sink (ctx : RateLimitContext) (configKey : String)
    (customConfig : Option RateLimitConfig)
    (headerValue envToken : Option String) (now : Int) (w : World) (b : Bool) :
    (checkRateLimit ctx configKey customConfig headerValue envToken now
        { w with sinkFails := b }).1 =
      (checkRateLimit ctx configKey customConfig headerValue envToken
        now w).1 := by
  unfold checkRateLimit
  split
  · rfl
  · split
    · rfl
    · dsimp only
      rw [checkBlockStatus_sink]
      split
      · rfl
      · unfold counterCheck
        dsimp only
        split
        · exact checkRateLimitDatabase_result_sink ctx _ now w b
        · cases hfo : w.fastOutcome with
          | none => rfl
          | some r =>
            dsimp only
            split <;> rfl

lemma db_step_empty (ctx : RateLimitContext) (ident : String)
    (bd : Option String) (bdm : Option Int) (tail : List RateLimitRule)
    (rule : RateLimitRule) (now : Int) (w : World)
    (hdb : w.db = emptyDb) (hfail : w.dbFails = false) :
    checkRateLimitDatabase ctx ⟨ident, rule :: tail, bd, bdm⟩ now w =
      (dbSuccessResult rule none now,
       { w with db := ⟨[⟨0, ctx.userId, ctx.ip, ctx.endpoint, 1,
           now - rule.windowMs, now + rule.windowMs⟩], 1⟩ }) := by
  unfold checkRateLimitDatabase
  rw [hfail, hdb]
  rfl

lemma db_step_live (ctx : RateLimitContext) (ident : String)
    (bd : Option String) (bdm : Option Int) (tail : List RateLimitRule)
    (rule : RateLimitRule) (now : Int) (w : World) (e : CounterEntry)
    (nid : Nat) (hdb : w.db = ⟨[e], nid⟩) (hfail : w.dbFails = false)
    (hip : e.ip = ctx.ip) (hep : e.endpoint = ctx.endpoint)
    (hlive : now < e.expiresAt) :
    checkRateLimitDatabase ctx ⟨ident, rule :: tail, bd, bdm⟩ now w =
      (if rule.requests ≤ e.attempts then
        (dbFailResult rule e now,
         logRateLimitViolation w ctx ⟨ident, rule :: tail, bd, bdm⟩
           "exceeded_database" none)
       else
        (dbSuccessResult rule (some e) now,
         { w with db := ⟨[{ e with attempts := e.attempts + 1 }], nid⟩ })) := by
  have hp : ((userIdFilter ctx.userId e || e.ip == ctx.ip) &&
      e.endpoint == ctx.endpoint && decide (now < e.expiresAt)) = true := by
    simp [hip, hep, hlive]
  have hfind : dbFind ctx now w.db = some e := by
    rw [hdb]
    unfold dbFind
    exact List.find?_cons_of_pos _ hp
  unfold checkRateLimitDatabase
  rw [hfail]
  simp only [Bool.false_eq_true, if_false]
  rw [hfind]
  dsimp only [List.headD_cons]
  split
  · rfl
  · rw [hdb]
    simp [dbUpsert]

lemma dbRun_counter_inv (ctx : RateLimitContext) (ident win : String)
    (bd : Option String) (bdm : Option Int) (tail : List RateLimitRule)
    (N W : Nat) (t : Nat → Int) (w : World)
    (hN : 1 ≤ N) (hW : 1 ≤ W) (hdb : w.db = emptyDb)
    (hfail : w.dbFails = false)
    (ht : ∀ i, i ≤ N → t i < t 0 + (W : Int)) :
    ∀ k, k ≤ N →
      (k = 0 →
        (dbRun ctx ⟨ident, ⟨(N : Int), win, (W : Int)⟩ :: tail, bd, bdm⟩
          t w k).db = emptyDb) ∧
      (1 ≤ k →
        (dbRun ctx ⟨ident, ⟨(N : Int), win, (W : Int)⟩ :: tail, bd, bdm⟩
          t w k).db =
          ⟨[⟨0, ctx.userId, ctx.ip, ctx.endpoint, (k : Int),
            t 0 - (W : Int), t 0 + (W : Int)⟩], 1⟩) ∧
      (dbRun ctx ⟨ident, ⟨(N : Int), win, (W : Int)⟩ :: tail, bd, bdm⟩
        t w k).dbFails = false := by
  intro k
  induction k with
  | zero =>
    exact fun _ => ⟨fun _ => hdb, fun h => absurd h (by omega), hfail⟩
  | succ j ih =>
    intro hk
    obtain ⟨h0, h1, hf⟩ := ih (by omega)
    have hstep : (checkRateLimitDatabase ctx
        ⟨ident, ⟨(N : Int), win, (W : Int)⟩ :: tail, bd, bdm⟩ (t j)
        (dbRun ctx ⟨ident, ⟨(N : Int), win, (W : Int)⟩ :: tail, bd, bdm⟩
          t w j)).2 =
        { dbRun ctx ⟨ident, ⟨(N : Int), win, (W : Int)⟩ :: tail, bd, bdm⟩
            t w j with
          db := ⟨[⟨0, ctx.userId, ctx.ip, ctx.endpoint, ((j + 1 : Nat) : Int),
            t 0 - (W : Int), t 0 + (W : Int)⟩], 1⟩ } := by
      cases Nat.eq_zero_or_pos j with
      | inl hj0 =>
        subst hj0
        rw [db_step_empty ctx ident bd bdm tail _ (t 0) _ (h0 rfl) hf]
        rfl
      | inr hj1 =>
        rw [db_step_live ctx ident bd bdm tail _ (t j) _ _ 1 (h1 hj1) hf
          rfl rfl (ht j (by omega))]
        split
        case isTrue hc =>
          exfalso
          have hc' : (N : Int) ≤ (j : Int) := hc
          omega
        case isFalse hc =>
          have hcast : ((j : Int) + 1) = ((j + 1 : Nat) : Int) := by push_cast; ring
          rw [hcast]
    refine ⟨fun h => absurd h (by omega), fun _ => ?_, ?_⟩
    · rw [dbRun, hstep]
    · rw [dbRun, hstep]
      exact hf

/- ### Claims -/

/-- C1: on the database-fallback path, a sequential run of requests within
the window against rule `{requestsAllowed = N, windowDuration = W}` from a
fresh store has its first N requests succeed with `remaining` counting down
`N-1, N-2, …, 0`, and the (N+1)-th request fail with `success = false`,
`remaining = 0` and `retryAfter > 0`. -/
theorem c1_database_sequential_quota (ctx : RateLimitContext)
    (ident win : String) (bd : Option String) (bdm : Option Int)
    (tail : List RateLimitRule) (N W : Nat) (t : Nat → Int) (w : World)
    (hN : 1 ≤ N) (hW : 1 ≤ W) (hdb : w.db = emptyDb)
    (hfail : w.dbFails = false)
    (ht : ∀ i, i ≤ N → t i < t 0 + (W : Int)) :
    (∀ i, i < N →
      dbRunResult ctx ⟨ident, ⟨(N : Int), win, (W : Int)⟩ :: tail, bd, bdm⟩
          t w i =
        { success := true, limit := .num (N : Int),
          remaining := .num ((N : Int) - ((i : Int) + 1)),
          reset := t i + (W : Int) }) ∧
    dbRunResult ctx ⟨ident, ⟨(N : Int), win, (W : Int)⟩ :: tail, bd, bdm⟩
        t w N =
      { success := false, limit := .num (N : Int), remaining := .num 0,
        reset := t 0 + (W : Int),
        retryAfter := some (ceilDiv (t 0 + (W : Int) - t N) 1000) } ∧
    0 < ceilDiv (t 0 + (W : Int) - t N) 1000 := by
  have inv := dbRun_counter_inv ctx ident win bd bdm tail N W t w hN hW hdb
    hfail ht
  have hpos : (0 : Int) < t 0 + (W : Int) - t N := by
    have := ht N (le_refl N)
    omega
  refine ⟨?_, ?_, ceilDiv_thousand_pos hpos⟩
  · intro i hi
    obtain ⟨h0, h1, hf⟩ := inv i (by omega)
    unfold dbRunResult
    cases Nat.eq_zero_or_pos i with
    | inl hi0 =>
      subst hi0
      rw [db_step_empty ctx ident bd bdm tail _ (t 0) _ (h0 rfl) hf]
      simp only [dbSuccessResult, RateLimitResult.mk.injEq, JsNum.num.injEq]
      refine ⟨trivial, trivial, ?_, trivial, trivial, trivial, trivial,
        trivial⟩
      omega
    | inr hi1 =>
      rw [db_step_live ctx ident bd bdm tail _ (t i) _ _ 1 (h1 hi1) hf
        rfl rfl (ht i (by omega))]
      split
      case isTrue hc =>
        exfalso
        have hc' : (N : Int) ≤ (i : Int) := hc
        omega
      case isFalse hc =>
        simp only [dbSuccessResult, RateLimitResult.mk.injEq, JsNum.num.injEq]
        refine ⟨trivial, trivial, ?_, trivial, trivial, trivial, trivial,
          trivial⟩
        omega
  · obtain ⟨h0, h1, hf⟩ := inv N (le_refl N)
    unfold dbRunResult
    rw [db_step_live ctx ident bd bdm tail _ (t N) _ _ 1 (h1 hN) hf
      rfl rfl (ht N (le_refl N))]
    split
    case isTrue hc => rfl
    case isFalse hc =>
      exfalso
      exact hc (le_refl ((N : Int)))

/-- C1 witness: rule `{requestsAllowed = 2, windowDuration = 60000 ms}` at a
fixed time — remaining counts down 1, 0, then the third request fails with
positive `retryAfter`. -/
theorem c1_database_sequential_quota_witness :
    dbRunResult sampleCtx ⟨"seq", [⟨2, "1 m", 60000⟩], none, none⟩
        (fun _ => 0) baseWorld 0 =
      { success := true, limit := .num 2, remaining := .num 1,
        reset := 60000 } ∧
    dbRunResult sampleCtx ⟨"seq", [⟨2, "1 m", 60000⟩], none, none⟩
        (fun _ => 0) baseWorld 1 =
      { success := true, limit := .num 2, remaining := .num 0,
        reset := 60000 } ∧
    dbRunResult sampleCtx ⟨"seq", [⟨2, "1 m", 60000⟩], none, none⟩
        (fun _ => 0) baseWorld 2 =
      { success := false, limit := .num 2, remaining := .num 0,
        reset := 60000, retryAfter := some 60 } ∧
    (0 : Int) < 60 := by
  have h := c1_database_sequential_quota sampleCtx "seq" "1 m" none none []
    2 60000 (fun _ => 0) baseWorld (by decide) (by decide) rfl rfl
    (fun i _ => by show (0 : Int) < 0 + ((60000 : Nat) : Int); decide)
  refine ⟨?_, ?_, ?_, by decide⟩
  · have h0 := h.1 0 (by decide)
    simpa using h0
  · have h1 := h.1 1 (by decide)
    simpa using h1
  · have h2 := h.2.1
    simpa using h2

/-- C4: the claim requires the durable-fallback increment to be a single
atomic conditional operation so that N concurrent requests lose no updates;
the source instead does `findFirst` followed by a separate `upsert`.  With
`requestsAllowed = 1`, two concurrent requests interleaved as
read/read/write/write both read "no live row", both succeed, and both
insert their own row, so a subsequent read of the counter sees `attempts = 1`
although two increments happened — a lost update and two successes where at
most one is allowed. -/
theorem c4_fallback_race_lost_update :
    let raceRule : RateLimitRule := ⟨1, "1 m", 60000⟩
    let eA := dbFind sampleCtx 0 emptyDb
    let dbA := dbUpsert sampleCtx raceRule 0 eA emptyDb
    let eB := dbFind sampleCtx 0 emptyDb
    let dbB := dbUpsert sampleCtx raceRule 0 eB dbA
    raceRule.requests = 1 ∧
    (dbSuccessResult raceRule eA 0).success = true ∧
    (dbSuccessResult raceRule eB 0).success = true ∧
    dbB.rows.length = 2 ∧
    (dbFind sampleCtx 0 dbB).map (fun e => e.attempts) = some 1 := by
  decide

/-- C5 (amended): a request whose bypass header matches the configured
secret token returns the unlimited success result (`limit = remaining = ∞`,
`reset = now + 60s`) immediately and unchanged — but, contrary to the
claim, that result carries no degraded/error marker and the world is left
untouched: no audit event is emitted. -/
theorem c5_emergency_bypass_unlimited (ctx : RateLimitContext)
    (configKey : String) (customConfig : Option RateLimitConfig)
    (headerValue envToken : Option String) (now : Int) (w : World)
    (h : bypassMatches headerValue envToken = true) :
    checkRateLimit ctx configKey customConfig headerValue envToken now w =
      ({ success := true, limit := .inf, remaining := .inf,
         reset := now + 60000 }, w) := by
  unfold checkRateLimit
  rw [h]
  rfl

/-- C5 witness: concrete bypass call through the theorem. -/
theorem c5_emergency_bypass_unlimited_witness :
    checkRateLimit sampleCtx "auth_login" none (some "s3cret") (some "s3cret")
        1000 baseWorld =
      ({ success := true, limit := .inf, remaining := .inf,
         reset := 61000 }, baseWorld) :=
  c5_emergency_bypass_unlimited sampleCtx "auth_login" none (some "s3cret")
    (some "s3cret") 1000 baseWorld (by decide)

/-- C5 counterexample: the claim as stated is false — on a matching bypass
the returned result has `error = none` (no `"emergency_bypass"` marker) and
the event log is unchanged (no audit event). -/
theorem c5_emergency_bypass_counterexample :
    (checkRateLimit sampleCtx "auth_login" none (some "tok") (some "tok")
        0 baseWorld).1.error = none ∧
    ¬ ((checkRateLimit sampleCtx "auth_login" none (some "tok") (some "tok")
        0 baseWorld).1.error = some "emergency_bypass") ∧
    (checkRateLimit sampleCtx "auth_login" none (some "tok") (some "tok")
        0 baseWorld).2.events = [] ∧
    (checkRateLimit sampleCtx "auth_login" none (some "tok") (some "tok")
        0 baseWorld).1.success = true := by
  decide

/-- C6 (amended): only the first rule of a config is ever enforced; the
remaining rules are ignored, so the outcome of a check is invariant under
changing the tail of the rules sequence. -/
theorem c6_only_first_rule_enforced (ctx : RateLimitContext)
    (configKey : String) (headerValue envToken : Option String) (now : Int)
    (w : World) (ident : String) (r : RateLimitRule)
    (t1 t2 : List RateLimitRule) (bd : Option String) (bdm : Option Int) :
    checkRateLimit ctx configKey (some ⟨ident, r :: t1, bd, bdm⟩)
        headerValue envToken now w =
      checkRateLimit ctx configKey (some ⟨ident, r :: t2, bd, bdm⟩)
        headerValue envToken now w := by
  simp only [checkRateLimit, resolveConfig, checkBlockStatus, counterCheck,
    checkRateLimitDatabase, handleRateLimitBlock, logRateLimitViolation,
    violationEvent, blockSetEvent, List.headD_cons]

/-- C6 counterexample: the claim as stated is false — with rules
`[{requestsAllowed 2}, {requestsAllowed 1}]` the second request succeeds
although its post-increment attempt count (2) exceeds the second rule's
`requestsAllowed` (1): evaluation is not conjunctive over all rules. -/
theorem c6_multi_rule_counterexample :
    let cfgMulti : RateLimitConfig :=
      ⟨"multi", [⟨2, "1 m", 60000⟩, ⟨1, "1 m", 60000⟩], none, none⟩
    let s1 := checkRateLimit sampleCtx "k" (some cfgMulti) none none 0 baseWorld
    let s2 := checkRateLimit sampleCtx "k" (some cfgMulti) none none 0 s1.2
    s2.1.success = true ∧
    s2.2.db.rows.map (fun e => e.attempts) = [2] ∧
    (cfgMulti.rules.getD 1 ⟨0, "", 0⟩).requests = 1 := by
  decide

/-- C9: the enforced config is chosen by the fixed three-level precedence
`customConfig` → `OPERATION_RATE_LIMITS[configKey]` → role-aware catalog
resolution; in particular an operation-keyed entry such as
`"profile_update"` shadows role-based resolution entirely (role-aware
resolution of that key would have yielded the public tier instead). -/
theorem c9_config_precedence :
    (∀ (c : RateLimitConfig) (key : String) (role : Option UserRole),
        resolveConfig (some c) key role = c) ∧
    (∀ (key : String) (role : Option UserRole) (c : RateLimitConfig),
        OPERATION_RATE_LIMITS.lookup key = some c →
        resolveConfig none key role = c) ∧
    (∀ (key : String) (role : Option UserRole),
        OPERATION_RATE_LIMITS.lookup key = none →
        resolveConfig none key role = getRateLimitConfig key role) ∧
    resolveConfig none "profile_update" (some .ADMIN) = profileUpdateConfig ∧
    getRateLimitConfig "profile_update" (some .ADMIN) = publicConfig := by
  refine ⟨fun c key role => rfl, fun key role c h => ?_, fun key role h => ?_,
    by decide, by decide⟩
  · unfold resolveConfig
    rw [h]
  · unfold resolveConfig
    rw [h]

/-- C9 witness: the three precedence levels at concrete inputs. -/
theorem c9_config_precedence_witness :
    resolveConfig (some authLoginConfig) "api_user" (some .ADMIN) =
        authLoginConfig ∧
    resolveConfig none "password_change" (some .USER) = passwordChangeConfig ∧
    resolveConfig none "auth_login" none = getRateLimitConfig "auth_login" none :=
  ⟨c9_config_precedence.1 authLoginConfig "api_user" (some .ADMIN),
   c9_config_precedence.2.1 "password_change" (some .USER) passwordChangeConfig
     (by decide),
   c9_config_precedence.2.2.1 "auth_login" none (by decide)⟩

/-- C10: the block check fails open — with no configured `blockDurationMs`
it reports "not blocked" whatever the ledger holds, a failing ledger lookup
likewise reports "not blocked", and in either situation a non-bypass
`checkRateLimit` call proceeds to the counter check. -/
theorem c10_block_check_fails_open :
    (∀ (ctx : RateLimitContext) (config : RateLimitConfig) (now : Int)
        (w : World), config.blockDurationMs = none →
        checkBlockStatus ctx config now w = ⟨false, none⟩) ∧
    (∀ (ctx : RateLimitContext) (config : RateLimitConfig) (now : Int)
        (w : World), w.blockLookupFails = true →
        checkBlockStatus ctx config now w = ⟨false, none⟩) ∧
    (∀ (ctx : RateLimitContext) (configKey : String)
        (customConfig : Option RateLimitConfig)
        (headerValue envToken : Option String) (now : Int) (w : World),
        bypassMatches headerValue envToken = false →
        ((resolveConfig customConfig configKey ctx.userRole).blockDurationMs =
            none ∨ w.blockLookupFails = true) →
        checkRateLimit ctx configKey customConfig headerValue envToken now w =
          counterCheck ctx (resolveConfig customConfig configKey ctx.userRole)
            now w) := by
  refine ⟨checkBlockStatus_of_bdm_none, checkBlockStatus_of_lookupFails,
    fun ctx key custom hdrv tokv now w hb hcond => ?_⟩
  unfold checkRateLimit
  rw [hb]
  have hbs : checkBlockStatus ctx (resolveConfig custom key ctx.userRole) now w =
      ⟨false, none⟩ := by
    rcases hcond with h | h
    · exact checkBlockStatus_of_bdm_none _ _ _ _ h
    · exact checkBlockStatus_of_lookupFails _ _ _ _ h
  simp [isWhitelisted_false, hbs]

/-- C2 (amended): the engine never throws — with both stores failing it
fails open with `success = true` and an `error` marker string, but the
marker values are `"Database rate limiting error"` (durable path, no
diagnostic event) and `"Rate limiting temporarily unavailable"` (fast-path
throw, with a diagnostic event), not `"storage_unavailable"`. -/
theorem c2_fail_open_behavior (ctx : RateLimitContext) (configKey : String)
    (customConfig : Option RateLimitConfig)
    (headerValue envToken : Option String) (now : Int) (w : World)
    (rule : RateLimitRule) (tail : List RateLimitRule)
    (hb : bypassMatches headerValue envToken = false)
    (hrules : (resolveConfig customConfig configKey ctx.userRole).rules =
      rule :: tail)
    (hblocked : (checkBlockStatus ctx
      (resolveConfig customConfig configKey ctx.userRole) now w).blocked =
      false) :
    (w.redisUp = false → w.dbFails = true →
      checkRateLimit ctx configKey customConfig headerValue envToken now w =
        ({ success := true, limit := .num rule.requests,
           remaining := .num (rule.requests - 1),
           reset := now + rule.windowMs,
           error := some "Database rate limiting error" }, w)) ∧
    (w.redisUp = true → w.fastOutcome = none →
      (checkRateLimit ctx configKey customConfig headerValue envToken
          now w).1 =
        { success := true, limit := .num 1000, remaining := .num 999,
          reset := now + 60000,
          error := some "Rate limiting temporarily unavailable" } ∧
      (checkRateLimit ctx configKey customConfig headerValue envToken
          now w).2.events =
        logSecurityEvent w.sinkFails w.events (limiterErrorEvent ctx)) := by
  constructor
  · intro hru hdf
    unfold checkRateLimit counterCheck checkRateLimitDatabase
    rw [hb]
    simp only [isWhitelisted_false, Bool.false_eq_true, if_false, hblocked,
      hru, hdf, hrules, List.headD_cons, if_true]
  · intro hru hfo
    constructor
    · unfold checkRateLimit counterCheck
      rw [hb]
      simp [isWhitelisted_false, hblocked, hru, hfo]
    · unfold checkRateLimit counterCheck
      rw [hb]
      simp [isWhitelisted_false, hblocked, hru, hfo]

/-- C2 witness: concrete total-outage call through the theorem. -/
theorem c2_fail_open_behavior_witness :
    checkRateLimit sampleCtx "auth_login" none none none 0 outageWorld =
      ({ success := true, limit := .num 5, remaining := .num 4,
         reset := 900000,
         error := some "Database rate limiting error" }, outageWorld) :=
  (c2_fail_open_behavior sampleCtx "auth_login" none none none 0 outageWorld
    ⟨5, "15 m", 900000⟩ [] (by decide) (by decide) (by decide)).1 rfl rfl

/-- C2 counterexample: the claim as stated is false — in a total-outage
world the fail-open result's marker is `"Database rate limiting error"`,
not `"storage_unavailable"`, and no diagnostic event is emitted on this
path. -/
theorem c2_storage_marker_counterexample :
    (checkRateLimit sampleCtx "auth_login" none none none 0
        outageWorld).1.success = true ∧
    (checkRateLimit sampleCtx "auth_login" none none none 0
        outageWorld).1.error = some "Database rate limiting error" ∧
    ¬ ((checkRateLimit sampleCtx "auth_login" none none none 0
        outageWorld).1.error = some "storage_unavailable") ∧
    (checkRateLimit sampleCtx "auth_login" none none none 0
        outageWorld).2.events = [] := by
  decide

/-- C3: with an active stored block (`now < blockUntil`, nonzero) under a
config with a (truthy) block duration, a non-bypass check fails with
`blocked = true`, `remaining = 0` and `retryAfter = ⌈(blockUntil - now)/1000⌉ > 0`,
and neither the counter table nor the block ledger is touched — the counter
state never enters the computation. -/
theorem c3_active_block_overrides_counter (ctx : RateLimitContext)
    (configKey : String) (customConfig : Option RateLimitConfig)
    (headerValue envToken : Option String) (now v d : Int) (w : World)
    (hb : bypassMatches headerValue envToken = false)
    (hd : (resolveConfig customConfig configKey ctx.userRole).blockDurationMs =
      some d)
    (hd0 : d ≠ 0) (hlf : w.blockLookupFails = false) (hru : w.redisUp = true)
    (hblk : w.blocks.lookup (blockKey ctx) = some v) (hv0 : v ≠ 0)
    (hnow : now < v) :
    checkRateLimit ctx configKey customConfig headerValue envToken now w =
      ({ success := false,
         limit := .num ((resolveConfig customConfig configKey
           ctx.userRole).rules.headD ⟨0, "", 0⟩).requests,
         remaining := .num 0, reset := v, blocked := some true,
         blockUntil := some v,
         retryAfter := some (ceilDiv (v - now) 1000) },
       logRateLimitViolation w ctx
         (resolveConfig customConfig configKey ctx.userRole) "blocked"
         (some v)) ∧
    0 < ceilDiv (v - now) 1000 ∧
    (checkRateLimit ctx configKey customConfig headerValue envToken
        now w).2.db = w.db ∧
    (checkRateLimit ctx configKey customConfig headerValue envToken
        now w).2.blocks = w.blocks := by
  have hbs : checkBlockStatus ctx
      (resolveConfig customConfig configKey ctx.userRole) now w =
      ⟨true, some v⟩ := by
    unfold checkBlockStatus
    rw [hd]
    simp [isFalsyNum, hd0, hlf, hru, hblk, hv0, hnow]
  have hmain : checkRateLimit ctx configKey customConfig headerValue envToken
      now w =
      ({ success := false,
         limit := .num ((resolveConfig customConfig configKey
           ctx.userRole).rules.headD ⟨0, "", 0⟩).requests,
         remaining := .num 0, reset := v, blocked := some true,
         blockUntil := some v,
         retryAfter := some (ceilDiv (v - now) 1000) },
       logRateLimitViolation w ctx
         (resolveConfig customConfig configKey ctx.userRole) "blocked"
         (some v)) := by
    unfold checkRateLimit
    rw [hb]
    simp [isWhitelisted_false, hbs]
  refine ⟨hmain, ceilDiv_thousand_pos (by omega), ?_, ?_⟩
  · rw [hmain]
    exact logRateLimitViolation_db w ctx _ "blocked" (some v)
  · rw [hmain]
    exact logRateLimitViolation_blocks w ctx _ "blocked" (some v)

/-- C3 witness: concrete blocked call through the theorem. -/
theorem c3_active_block_overrides_counter_witness :
    (checkRateLimit sampleCtx "auth_login" none none none 1000
        ledgerWorld).1.blocked = some true ∧
    (checkRateLimit sampleCtx "auth_login" none none none 1000
        ledgerWorld).1.success = false ∧
    (checkRateLimit sampleCtx "auth_login" none none none 1000
        ledgerWorld).1.retryAfter = some 999 := by
  have h := c3_active_block_overrides_counter sampleCtx "auth_login" none
    none none 1000 999999 1800000 ledgerWorld rfl (by decide) (by decide)
    rfl rfl (by decide) (by decide) (by decide)
  rw [h.1]
  exact ⟨rfl, rfl, rfl⟩

/-- C7: (1) while an identifier is blocked, a check leaves the block
ledger unchanged — the stored `blockUntil` is not extended; (2) the ledger
changes only when the config has a truthy block duration, the call is not a
bypass, the identifier was not already blocked, and the fast counter
reported a genuine violation; (3) a fresh violation once the stored block
has expired stores the new block `now + blockDuration`. -/
theorem c7_block_lifecycle :
    (∀ (ctx : RateLimitContext) (configKey : String)
        (customConfig : Option RateLimitConfig)
        (headerValue envToken : Option String) (now v d : Int) (w : World),
        bypassMatches headerValue envToken = false →
        (resolveConfig customConfig configKey ctx.userRole).blockDurationMs =
          some d →
        d ≠ 0 → w.blockLookupFails = false → w.redisUp = true →
        w.blocks.lookup (blockKey ctx) = some v → v ≠ 0 → now < v →
        (checkRateLimit ctx configKey customConfig headerValue envToken
          now w).2.blocks = w.blocks) ∧
    (∀ (ctx : RateLimitContext) (configKey : String)
        (customConfig : Option RateLimitConfig)
        (headerValue envToken : Option String) (now : Int) (w : World),
        (checkRateLimit ctx configKey customConfig headerValue envToken
          now w).2.blocks ≠ w.blocks →
        isFalsyNum (resolveConfig customConfig configKey
          ctx.userRole).blockDurationMs = false ∧
        bypassMatches headerValue envToken = false ∧
        (checkBlockStatus ctx (resolveConfig customConfig configKey
          ctx.userRole) now w).blocked = false ∧
        ∃ r, w.fastOutcome = some r ∧ r.success = false) ∧
    (∀ (ctx : RateLimitContext) (configKey : String)
        (customConfig : Option RateLimitConfig)
        (headerValue envToken : Option String) (now v d : Int) (w : World)
        (r : FastOutcome),
        bypassMatches headerValue envToken = false →
        (resolveConfig customConfig configKey ctx.userRole).blockDurationMs =
          some d →
        d ≠ 0 → w.blockLookupFails = false → w.redisUp = true →
        w.blocks.lookup (blockKey ctx) = some v → ¬ (v ≠ 0 ∧ now < v) →
        w.fastOutcome = some r → r.success = false → w.setexFails = false →
        (checkRateLimit ctx configKey customConfig headerValue envToken
          now w).2.blocks = setAssoc w.blocks (blockKey ctx) (now + d)) := by
  refine ⟨?_, ?_, ?_⟩
  · intro ctx configKey customConfig headerValue envToken now v d w hb hd hd0
      hlf hru hblk hv0 hnow
    have hbs : checkBlockStatus ctx
        (resolveConfig customConfig configKey ctx.userRole) now w =
        ⟨true, some v⟩ := by
      unfold checkBlockStatus
      rw [hd]
      simp [isFalsyNum, hd0, hlf, hru, hblk, hv0, hnow]
    unfold checkRateLimit
    rw [hb]
    simp [isWhitelisted_false, hbs, logRateLimitViolation_blocks]
  · intro ctx configKey customConfig headerValue envToken now w hne
    by_cases hbp : bypassMatches headerValue envToken = true
    · exfalso
      apply hne
      unfold checkRateLimit
      rw [hbp]
      rfl
    · rw [Bool.not_eq_true] at hbp
      unfold checkRateLimit at hne
      rw [hbp] at hne
      simp only [isWhitelisted_false, Bool.false_eq_true, if_false] at hne
      by_cases hblk : (checkBlockStatus ctx (resolveConfig customConfig
          configKey ctx.userRole) now w).blocked = true
      · exfalso
        rw [if_pos hblk] at hne
        exact hne rfl
      · rw [Bool.not_eq_true] at hblk
        rw [if_neg (by rw [hblk]; exact Bool.false_ne_true)] at hne
        unfold counterCheck at hne
        by_cases hru : w.redisUp = false
        · exfalso
          rw [if_pos hru, checkRateLimitDatabase_blocks] at hne
          exact hne rfl
        · rw [if_neg hru] at hne
          cases hfo : w.fastOutcome with
          | none =>
            exfalso
            rw [hfo] at hne
            exact hne rfl
          | some r =>
            rw [hfo] at hne
            dsimp only at hne
            by_cases hrs : r.success = false
            · refine ⟨?_, hbp, hblk, r, rfl, hrs⟩
              by_cases hfn : isFalsyNum (resolveConfig customConfig configKey
                  ctx.userRole).blockDurationMs = true
              · exfalso
                rw [if_pos hrs] at hne
                dsimp only at hne
                unfold handleRateLimitBlock at hne
                rw [if_pos hfn, logRateLimitViolation_blocks] at hne
                exact hne rfl
              · exact Bool.not_eq_true _ |>.mp hfn
            · exfalso
              rw [Bool.not_eq_false] at hrs
              rw [if_neg (by simp [hrs])] at hne
              exact hne rfl
  · intro ctx configKey customConfig headerValue envToken now v d w r hb hd
      hd0 hlf hru hblk hnb hfo hrs hsx
    have hbs : checkBlockStatus ctx
        (resolveConfig customConfig configKey ctx.userRole) now w =
        ⟨false, none⟩ := by
      unfold checkBlockStatus
      rw [hd]
      simp [isFalsyNum, hd0, hlf, hru, hblk, hnb]
    unfold checkRateLimit counterCheck
    rw [hb]
    simp only [isWhitelisted_false, Bool.false_eq_true, if_false, hbs, hru,
      hfo, hrs]
    unfold handleRateLimitBlock
    rw [hd]
    simp [isFalsyNum, hd0, logRateLimitViolation, hsx, hru]

/-- C7 witness: a blocked call leaves the ledger unchanged; a violation
after expiry writes the fresh block. -/
theorem c7_block_lifecycle_witness :
    (checkRateLimit sampleCtx "auth_login" none none none 1000
        ledgerWorld).2.blocks = ledgerWorld.blocks ∧
    (checkRateLimit sampleCtx "auth_login" none none none 1000
        expiredWorld).2.blocks =
      setAssoc expiredWorld.blocks "block:ip:203.0.113.5" 1801000 := by
  constructor
  · exact c7_block_lifecycle.1 sampleCtx "auth_login" none none none 1000
      999999 1800000 ledgerWorld rfl (by decide) (by decide) rfl rfl
      (by decide) (by decide) (by decide)
  · exact c7_block_lifecycle.2.2 sampleCtx "auth_login" none none none 1000
      500 1800000 expiredWorld ⟨false, 5, 0, 10000⟩ rfl (by decide)
      (by decide) rfl rfl (by decide) (by decide) rfl rfl rfl

/-- C8: the returned `RateLimitResult` is identical whether the event-sink
write succeeds or throws — emission is fire-and-forget relative to the
decision. -/
theorem c8_sink_independent_result (ctx : RateLimitContext)
    (configKey : String) (customConfig : Option RateLimitConfig)
    (headerValue envToken : Option String) (now : Int) (w : World)
    (b1 b2 : Bool) :
    (checkRateLimit ctx configKey customConfig headerValue envToken now
        { w with sinkFails := b1 }).1 =
      (checkRateLimit ctx configKey customConfig headerValue envToken now
        { w with sinkFails := b2 }).1 :=
  (checkRateLimit_result_sink ctx configKey customConfig headerValue envToken
    now w b1).trans
    (checkRateLimit_result_sink ctx configKey customConfig headerValue
      envToken now w b2).symm

/-- C10 witness: an identifier with an active stored block but a config with
no block duration is treated as not blocked and the request reaches the
database counter. -/
theorem c10_block_check_fails_open_witness :
    checkBlockStatus sampleCtx noBlockConfig 0 ledgerWorld = ⟨false, none⟩ ∧
    checkBlockStatus sampleCtx authLoginConfig 0 lookupFailWorld =
        ⟨false, none⟩ ∧
    checkRateLimit sampleCtx "k" (some noBlockConfig) none none 0 baseWorld =
      counterCheck sampleCtx noBlockConfig 0 baseWorld :=
  ⟨c10_block_check_fails_open.1 sampleCtx noBlockConfig 0 ledgerWorld rfl,
   c10_block_check_fails_open.2.1 sampleCtx authLoginConfig 0 lookupFailWorld
     rfl,
   c10_block_check_fails_open.2.2 sampleCtx "k" (some noBlockConfig) none none
     0 baseWorld rfl (Or.inl rfl)⟩

end ProdSafe
